import Mathlib

/-!
Verification of the generic configuration-parameter resolution mechanism of
gcomm (src/gcomm/src/gcomm/conf.hpp).

The source file under scrutiny contains the C++ template
`_conf_param<T>(uri, param, default_value, min_value, max_value)` together
with its convenience wrappers `conf_param`, `conf_param_def`,
`conf_param_range`, `conf_param_def_min`, `conf_param_def_max` and
`conf_param_def_range`.  The two collaborators it calls — the lookup
source `gu::URI::get_option` and the typed converter `gu::from_string<T>`
— are not part of the repository snapshot, so they are modelled from the
specification (see the doc comments below).

C++ exceptions are embedded as `Except`: a thrown `gu::NotFound` from the
lookup is the `none` branch of `get_option`; a conversion failure from the
converter is a `ConvError`; the errors thrown by `_conf_param` itself
(`gu_throw_error(EINVAL) << ...`) are embedded as structured constructors
carrying exactly the data the corresponding message streams in.
-/

namespace gcomm

/-- Modelled from the spec: the Lookup Source collaborator (`gu::URI`).
The spec describes it as "an opaque, already-parsed key/value store, keys
unique", exposing `get_option(key) -> value-or-not-found` "plus a
stringification of the whole descriptor for inclusion in error messages".
The key/value store is a list of pairs queried by first match, and the
stringification is carried verbatim. -/
structure URI where
  opts : List (String × String)
  str  : String
deriving DecidableEq

/-- Modelled from the spec: `gu::URI::get_option`, "get(key) ->
value-or-not-found".  A `none` result embeds the thrown `gu::NotFound`. -/
def URI.get_option (uri : URI) (key : String) : Option String :=
  (uri.opts.find? (fun kv => kv.fst == key)).map Prod.snd

/-- Modelled from the spec: the descriptor stringification used by
`_conf_param` in its missing-parameter error message (`uri.to_string()`). -/
def URI.to_string (uri : URI) : String :=
  uri.str

/-- Modelled from the spec: the failure of the Typed Converter
(`gu::from_string<T>`), which per §4.1 names "the offending string and
target type".  It receives only the raw string, so it carries the raw
text and a reason naming the target type — and no parameter key. -/
structure ConvError where
  raw    : String
  reason : String
deriving DecidableEq

/-- The failures `_conf_param` can produce, one constructor per distinct
exception path of the C++ code:
* `missingParameter` — `gu_throw_error(EINVAL) << "param " << param
  << " not found from uri " << uri.to_string()` (conf.hpp:285-287);
* `invalidValue` — a converter failure propagated past the
  `catch (gu::NotFound&)` clause, unwrapped (conf.hpp:279);
* `belowMinimum` — `"param " << param << " value " << ret << " out of
  range min allowed " << *min_value` (conf.hpp:294-296);
* `aboveMaximum` — `"param " << param << " value " << ret << " out of
  range max allowed " << *max_value` (conf.hpp:301-303).
Each constructor carries exactly the data its message streams in. -/
inductive ResolutionError (T : Type) where
  | missingParameter (param : String) (uri_str : String)
  | invalidValue (e : ConvError)
  | belowMinimum (param : String) (value : T) (min_allowed : T)
  | aboveMaximum (param : String) (value : T) (max_allowed : T)
deriving DecidableEq

/-- The parameter key carried by a resolution failure, if any.  The
missing-parameter and bound errors stream the key into their message; a
propagated converter failure does not contain it. -/
def ResolutionError.key_name {T : Type} : ResolutionError T → Option String
  | .missingParameter p _ => some p
  | .invalidValue _       => none
  | .belowMinimum p _ _   => some p
  | .aboveMaximum p _ _   => some p

/-- Embedding of the body of the `try` block of `_conf_param`
(conf.hpp:277-290): `ret = gu::from_string<T>(uri.get_option(param))`,
with the `catch (gu::NotFound&)` handler.  `gu::NotFound` is thrown by
`get_option` when the key is absent; in that case a supplied default
becomes `ret`, otherwise the missing-parameter error is thrown.  A
converter failure is not a `gu::NotFound`, so it escapes the `catch`
unwrapped. -/
def lookup_convert {T : Type} (conv : String → Except ConvError T)
    (uri : URI) (param : String) (default_value : Option T) :
    Except (ResolutionError T) T :=
  match uri.get_option param with
  | none =>
    match default_value with
    | none   => Except.error (ResolutionError.missingParameter param uri.to_string)
    | some d => Except.ok d
  | some raw =>
    match conv raw with
    | Except.ok v    => Except.ok v
    | Except.error e => Except.error (ResolutionError.invalidValue e)

/-- Embedding of `if (min_value != 0 && *min_value > ret) gu_throw_error…`
(conf.hpp:292-297). -/
def min_check {T : Type} [LinearOrder T] (param : String)
    (min_value : Option T) (ret : T) : Except (ResolutionError T) Unit :=
  match min_value with
  | some mn =>
    if mn > ret then Except.error (ResolutionError.belowMinimum param ret mn)
    else Except.ok ()
  | none => Except.ok ()

/-- Embedding of `if (max_value != 0 && *max_value < ret) gu_throw_error…`
(conf.hpp:299-304). -/
def max_check {T : Type} [LinearOrder T] (param : String)
    (max_value : Option T) (ret : T) : Except (ResolutionError T) Unit :=
  match max_value with
  | some mx =>
    if mx < ret then Except.error (ResolutionError.aboveMaximum param ret mx)
    else Except.ok ()
  | none => Except.ok ()

/-- Embedding of `_conf_param<T>` (conf.hpp:269-306).  The converter for
the target type `T` is passed explicitly, embedding the C++ template
instantiation `gu::from_string<T>`.  The sequence is exactly that of the
source: lookup-and-convert (with the default substituted on `NotFound`),
then the minimum check, then the maximum check, then `return ret`.  Note
that both bound checks run on `ret` whatever its origin — converted value
or default. -/
def _conf_param {T : Type} [LinearOrder T]
    (conv : String → Except ConvError T)
    (uri : URI) (param : String)
    (default_value min_value max_value : Option T) :
    Except (ResolutionError T) T := do
  let ret ← lookup_convert conv uri param default_value
  min_check param min_value ret
  max_check param max_value ret
  return ret

/-- Embedding of `conf_param<T>` (conf.hpp:308-312):
`_conf_param<T>(uri, param, 0, 0, 0)`. -/
def conf_param {T : Type} [LinearOrder T]
    (conv : String → Except ConvError T)
    (uri : URI) (param : String) : Except (ResolutionError T) T :=
  _conf_param conv uri param none none none

/-- Embedding of `conf_param_def<T>` (conf.hpp:314-319):
`_conf_param(uri, param, &default_value)`. -/
def conf_param_def {T : Type} [LinearOrder T]
    (conv : String → Except ConvError T)
    (uri : URI) (param : String) (default_value : T) :
    Except (ResolutionError T) T :=
  _conf_param conv uri param (some default_value) none none

/-- Embedding of `conf_param_range<T>` (conf.hpp:321-327):
`_conf_param(uri, param, 0, &min_value, &max_value)`. -/
def conf_param_range {T : Type} [LinearOrder T]
    (conv : String → Except ConvError T)
    (uri : URI) (param : String) (min_value max_value : T) :
    Except (ResolutionError T) T :=
  _conf_param conv uri param none (some min_value) (some max_value)

/-- Embedding of `conf_param_def_min<T>` (conf.hpp:329-336):
`_conf_param(uri, param, &default_value, &min_value)`. -/
def conf_param_def_min {T : Type} [LinearOrder T]
    (conv : String → Except ConvError T)
    (uri : URI) (param : String) (default_value min_value : T) :
    Except (ResolutionError T) T :=
  _conf_param conv uri param (some default_value) (some min_value) none

/-- Embedding of `conf_param_def_max<T>` (conf.hpp:338-345):
`_conf_param(uri, param, &default_value, (const T*)0, &max_value)`. -/
def conf_param_def_max {T : Type} [LinearOrder T]
    (conv : String → Except ConvError T)
    (uri : URI) (param : String) (default_value max_value : T) :
    Except (ResolutionError T) T :=
  _conf_param conv uri param (some default_value) none (some max_value)

/-- Embedding of `conf_param_def_range<T>` (conf.hpp:347-354):
`_conf_param(uri, param, &default_value, &min_value, &max_value)`. -/
def conf_param_def_range {T : Type} [LinearOrder T]
    (conv : String → Except ConvError T)
    (uri : URI) (param : String) (default_value min_value max_value : T) :
    Except (ResolutionError T) T :=
  _conf_param conv uri param (some default_value) (some min_value) (some max_value)

/-- Concrete integer converter on a small closed table, used by the
witness and counterexample theorems to instantiate the generic resolver
at explicit inputs. -/
def demo_conv (s : String) : Except ConvError Nat :=
  if s = "0" then Except.ok 0
  else if s = "5" then Except.ok 5
  else if s = "32" then Except.ok 32
  else Except.error (ConvError.mk s "invalid integer")

/-- Concrete descriptor with no options. -/
def demo_uri_empty : URI := URI.mk [] "gcomm://"

/-- Concrete descriptor binding key `x` to the well-formed value `32`. -/
def demo_uri_present : URI := URI.mk [("x", "32")] "gcomm://?x=32"

/-- Concrete descriptor binding key `x` to the malformed value `foo`. -/
def demo_uri_bad : URI := URI.mk [("x", "foo")] "gcomm://?x=foo"

/-- Concrete descriptor binding key `x` to the well-formed value `5`. -/
def demo_uri_five : URI := URI.mk [("x", "5")] "gcomm://?x=5"

/-- Concrete descriptor binding key `x` to the well-formed value `0`. -/
def demo_uri_low : URI := URI.mk [("x", "0")] "gcomm://?x=0"

section lookup_lemmas

variable {T : Type}

lemma lookup_convert_absent_none (conv : String → Except ConvError T)
    (uri : URI) (param : String) (habs : uri.get_option param = none) :
    lookup_convert conv uri param none
      = Except.error (ResolutionError.missingParameter param uri.to_string) := by
  simp [lookup_convert, habs]

lemma lookup_convert_absent_some (conv : String → Except ConvError T)
    (uri : URI) (param : String) (d : T) (habs : uri.get_option param = none) :
    lookup_convert conv uri param (some d) = Except.ok d := by
  simp [lookup_convert, habs]

lemma lookup_convert_present_ok (conv : String → Except ConvError T)
    (uri : URI) (param : String) (dv : Option T) (raw : String) (v : T)
    (hopt : uri.get_option param = some raw) (hconv : conv raw = Except.ok v) :
    lookup_convert conv uri param dv = Except.ok v := by
  simp [lookup_convert, hopt, hconv]

lemma lookup_convert_present_err (conv : String → Except ConvError T)
    (uri : URI) (param : String) (dv : Option T) (raw : String) (e : ConvError)
    (hopt : uri.get_option param = some raw) (hconv : conv raw = Except.error e) :
    lookup_convert conv uri param dv = Except.error (ResolutionError.invalidValue e) := by
  simp [lookup_convert, hopt, hconv]

lemma lookup_convert_present_any_default (conv : String → Except ConvError T)
    (uri : URI) (param : String) (dv1 dv2 : Option T) (raw : String)
    (hopt : uri.get_option param = some raw) :
    lookup_convert conv uri param dv1 = lookup_convert conv uri param dv2 := by
  simp [lookup_convert, hopt]

lemma lookup_convert_never_below (conv : String → Except ConvError T)
    (uri : URI) (param : String) (dv : Option T) (p : String) (v m : T) :
    lookup_convert conv uri param dv
      ≠ Except.error (ResolutionError.belowMinimum p v m) := by
  unfold lookup_convert
  cases hg : uri.get_option param with
  | none => cases dv <;> simp
  | some raw => cases hc : conv raw <;> simp [hc]

end lookup_lemmas

section helper_lemmas

variable {T : Type} [LinearOrder T]

lemma min_check_passes (param : String) (min_value : Option T) (ret : T)
    (h : ∀ m, min_value = some m → m ≤ ret) :
    min_check param min_value ret = Except.ok () := by
  cases hm : min_value with
  | none => rfl
  | some mn => simp [min_check, not_lt_of_ge (h mn hm)]

lemma min_check_fails (param : String) (mn ret : T) (h : ret < mn) :
    min_check param (some mn) ret
      = Except.error (ResolutionError.belowMinimum param ret mn) := by
  simp [min_check, h]

lemma max_check_passes (param : String) (max_value : Option T) (ret : T)
    (h : ∀ m, max_value = some m → ret ≤ m) :
    max_check param max_value ret = Except.ok () := by
  cases hm : max_value with
  | none => rfl
  | some mx => simp [max_check, not_lt_of_ge (h mx hm)]

lemma max_check_fails (param : String) (mx ret : T) (h : mx < ret) :
    max_check param (some mx) ret
      = Except.error (ResolutionError.aboveMaximum param ret mx) := by
  simp [max_check, h]

lemma max_check_never_below (param : String) (mxo : Option T) (ret : T)
    (p : String) (v m : T) :
    max_check param mxo ret
      ≠ Except.error (ResolutionError.belowMinimum p v m) := by
  cases mxo with
  | none => simp [max_check]
  | some mx => by_cases h : mx < ret <;> simp [max_check, h]

lemma _conf_param_lookup_error (conv : String → Except ConvError T)
    (uri : URI) (param : String) (dv mn mx : Option T) (e : ResolutionError T)
    (h : lookup_convert conv uri param dv = Except.error e) :
    _conf_param conv uri param dv mn mx = Except.error e := by
  simp [_conf_param, h, Bind.bind, Except.bind]

lemma _conf_param_min_error (conv : String → Except ConvError T)
    (uri : URI) (param : String) (dv mn mx : Option T) (ret : T)
    (e : ResolutionError T)
    (h1 : lookup_convert conv uri param dv = Except.ok ret)
    (h2 : min_check param mn ret = Except.error e) :
    _conf_param conv uri param dv mn mx = Except.error e := by
  simp [_conf_param, h1, h2, Bind.bind, Except.bind]

lemma _conf_param_max_error (conv : String → Except ConvError T)
    (uri : URI) (param : String) (dv mn mx : Option T) (ret : T)
    (e : ResolutionError T)
    (h1 : lookup_convert conv uri param dv = Except.ok ret)
    (h2 : min_check param mn ret = Except.ok ())
    (h3 : max_check param mx ret = Except.error e) :
    _conf_param conv uri param dv mn mx = Except.error e := by
  simp [_conf_param, h1, h2, h3, Bind.bind, Except.bind]

lemma _conf_param_ok (conv : String → Except ConvError T)
    (uri : URI) (param : String) (dv mn mx : Option T) (ret : T)
    (h1 : lookup_convert conv uri param dv = Except.ok ret)
    (h2 : min_check param mn ret = Except.ok ())
    (h3 : max_check param mx ret = Except.ok ()) :
    _conf_param conv uri param dv mn mx = Except.ok ret := by
  simp [_conf_param, h1, h2, h3, Bind.bind, Except.bind, Pure.pure, Except.pure]

end helper_lemmas

/-- C1 (counterexample): the claim that an absent key with a supplied
default `D` resolves to `D` unconditionally, with no range validation even
when `D` lies outside the supplied bounds, is false: with key `x` absent,
default `5` and minimum bound `10`, `_conf_param` fails with the
below-minimum error instead of returning `5`. -/
theorem absent_default_out_of_range_rejected :
    _conf_param demo_conv demo_uri_empty "x" (some 5) (some 10) none
      = Except.error (ResolutionError.belowMinimum "x" 5 10) := by
  rfl

/-- C1 (amended): when the key is absent and a default `D` is supplied,
`D` becomes the candidate with no type conversion, but range validation IS
applied to `D` exactly as to a converted value: resolution returns `D`
when `D` satisfies all supplied bounds, fails with the below-minimum error
when a supplied minimum exceeds `D`, and fails with the above-maximum
error when `D` passes the minimum check but exceeds a supplied maximum. -/
theorem absent_key_default_range_validated {T : Type} [LinearOrder T]
    (conv : String → Except ConvError T) (uri : URI) (param : String)
    (D : T) (min_value max_value : Option T)
    (habs : uri.get_option param = none) :
    ((∀ m, min_value = some m → m ≤ D) → (∀ m, max_value = some m → D ≤ m) →
      _conf_param conv uri param (some D) min_value max_value = Except.ok D)
    ∧ (∀ m, min_value = some m → D < m →
      _conf_param conv uri param (some D) min_value max_value
        = Except.error (ResolutionError.belowMinimum param D m))
    ∧ (∀ m, max_value = some m → (∀ m1, min_value = some m1 → m1 ≤ D) → m < D →
      _conf_param conv uri param (some D) min_value max_value
        = Except.error (ResolutionError.aboveMaximum param D m)) := by
  have hl := lookup_convert_absent_some conv uri param D habs
  refine ⟨fun hmn hmx => ?_, fun m hm hlt => ?_, fun m hm hmn hgt => ?_⟩
  · exact _conf_param_ok conv uri param (some D) min_value max_value D hl
      (min_check_passes param min_value D hmn)
      (max_check_passes param max_value D hmx)
  · subst hm
    exact _conf_param_min_error conv uri param (some D) (some m) max_value D _ hl
      (min_check_fails param m D hlt)
  · subst hm
    exact _conf_param_max_error conv uri param (some D) min_value (some m) D _ hl
      (min_check_passes param min_value D hmn)
      (max_check_fails param m D hgt)

/-- C1 (witness for the amended claim): with key `x` absent, default `5`
and bounds `1 ≤ _ ≤ 10`, resolution returns the default `5`. -/
theorem absent_key_default_range_validated_witness :
    _conf_param demo_conv demo_uri_empty "x" (some 5) (some 1) (some 10)
      = Except.ok 5 :=
  (absent_key_default_range_validated demo_conv demo_uri_empty "x" 5
      (some 1) (some 10) rfl).1
    (fun m hm => by cases hm; decide)
    (fun m hm => by cases hm; decide)

/-- C2 (counterexample): the claim that a conversion failure yields an
error carrying the offending key name is false: resolving present key `x`
with unconvertible raw text `foo` yields the converter failure — carrying
the raw text and reason — whose carried key name is `none`. -/
theorem conversion_failure_lacks_key_name :
    _conf_param demo_conv demo_uri_bad "x" none none none
      = Except.error (ResolutionError.invalidValue (ConvError.mk "foo" "invalid integer"))
    ∧ (ResolutionError.invalidValue (ConvError.mk "foo" "invalid integer")
        : ResolutionError Nat).key_name = none := by
  exact ⟨rfl, rfl⟩

/-- C2 (amended): when the key is present but its raw string fails type
conversion, resolution fails with the converter failure propagated
unwrapped — it carries the raw text and the reason, but not the key name,
because the resolver catches only the not-found exception and never
reshapes a conversion failure. -/
theorem conversion_failure_propagates_unwrapped {T : Type} [LinearOrder T]
    (conv : String → Except ConvError T) (uri : URI) (param : String)
    (dv mn mx : Option T) (raw : String) (e : ConvError)
    (hopt : uri.get_option param = some raw)
    (hconv : conv raw = Except.error e) :
    _conf_param conv uri param dv mn mx
      = Except.error (ResolutionError.invalidValue e)
    ∧ (ResolutionError.invalidValue e : ResolutionError T).key_name = none :=
  ⟨_conf_param_lookup_error conv uri param dv mn mx _
      (lookup_convert_present_err conv uri param dv raw e hopt hconv),
   rfl⟩

/-- C2 (witness for the amended claim): resolving present key `x` with raw
text `foo` under a default and bounds still yields the unwrapped converter
failure without a key name. -/
theorem conversion_failure_propagates_unwrapped_witness :
    _conf_param demo_conv demo_uri_bad "x" (some 7) (some 1) (some 10)
      = Except.error (ResolutionError.invalidValue (ConvError.mk "foo" "invalid integer"))
    ∧ (ResolutionError.invalidValue (ConvError.mk "foo" "invalid integer")
        : ResolutionError Nat).key_name = none :=
  conversion_failure_propagates_unwrapped demo_conv demo_uri_bad "x"
    (some 7) (some 1) (some 10) "foo" (ConvError.mk "foo" "invalid integer")
    rfl rfl

/-- C3: when the key is absent and no default is supplied, resolution
fails with the missing-parameter error naming the key (and the descriptor
stringification), whatever minimum or maximum bounds are supplied. -/
theorem absent_key_no_default_missing_parameter {T : Type} [LinearOrder T]
    (conv : String → Except ConvError T) (uri : URI) (param : String)
    (mn mx : Option T)
    (habs : uri.get_option param = none) :
    _conf_param conv uri param none mn mx
      = Except.error (ResolutionError.missingParameter param uri.to_string)
    ∧ (ResolutionError.missingParameter param uri.to_string
        : ResolutionError T).key_name = some param :=
  ⟨_conf_param_lookup_error conv uri param none mn mx _
      (lookup_convert_absent_none conv uri param habs),
   rfl⟩

/-- C3 (witness): with key `y` absent, no default and bounds supplied,
resolution fails with the missing-parameter error naming `y`. -/
theorem absent_key_no_default_missing_parameter_witness :
    _conf_param demo_conv demo_uri_empty "y" none (some 1) (some 10)
      = Except.error (ResolutionError.missingParameter "y" "gcomm://")
    ∧ (ResolutionError.missingParameter "y" "gcomm://"
        : ResolutionError Nat).key_name = some "y" :=
  absent_key_no_default_missing_parameter demo_conv demo_uri_empty "y"
    (some 1) (some 10) rfl

/-- C4: when the key is present, its raw string converts successfully and
no bound is supplied, resolution returns exactly the converted value
(whether or not a default is supplied); instantiating the raw string with
any textual encoding of a typed value that the converter maps back to it
gives the round-trip property. -/
theorem present_no_bounds_returns_converted {T : Type} [LinearOrder T]
    (conv : String → Except ConvError T) (uri : URI) (param : String)
    (dv : Option T) (raw : String) (v : T)
    (hopt : uri.get_option param = some raw)
    (hconv : conv raw = Except.ok v) :
    _conf_param conv uri param dv none none = Except.ok v :=
  _conf_param_ok conv uri param dv none none v
    (lookup_convert_present_ok conv uri param dv raw v hopt hconv)
    rfl rfl

/-- C4 (witness): resolving integer key `x` with raw value `32` and no
bounds returns `32`. -/
theorem present_no_bounds_returns_converted_witness :
    _conf_param demo_conv demo_uri_present "x" (some 7) none none
      = Except.ok 32 :=
  present_no_bounds_returns_converted demo_conv demo_uri_present "x"
    (some 7) "32" 32 rfl rfl

/-- C5: when the key is present, its raw string converts successfully and
a minimum bound is supplied, a converted value strictly below the bound
makes resolution fail with the below-minimum error carrying the key, the
offending value and the violated bound — whatever default or maximum bound
is supplied. -/
theorem below_minimum_rejected {T : Type} [LinearOrder T]
    (conv : String → Except ConvError T) (uri : URI) (param : String)
    (dv mx : Option T) (mn : T) (raw : String) (v : T)
    (hopt : uri.get_option param = some raw)
    (hconv : conv raw = Except.ok v)
    (hlt : v < mn) :
    _conf_param conv uri param dv (some mn) mx
      = Except.error (ResolutionError.belowMinimum param v mn) :=
  _conf_param_min_error conv uri param dv (some mn) mx v _
    (lookup_convert_present_ok conv uri param dv raw v hopt hconv)
    (min_check_fails param mn v hlt)

/-- C5 (witness): resolving key `x` with raw value `5` against minimum
`10` fails with the below-minimum error carrying `x`, `5` and `10`. -/
theorem below_minimum_rejected_witness :
    _conf_param demo_conv demo_uri_five "x" none (some 10) (some 20)
      = Except.error (ResolutionError.belowMinimum "x" 5 10) :=
  below_minimum_rejected demo_conv demo_uri_five "x" none (some 20) 10
    "5" 5 rfl rfl (by decide)

/-- C6: when the key is present, its raw string converts successfully and
a maximum bound is supplied, a converted value strictly above the bound
makes resolution fail with the above-maximum error carrying the key, the
offending value and the violated bound — whatever default is supplied, and
for any supplied minimum bound respecting the documented caller invariant
minimum ≤ maximum. -/
theorem above_maximum_rejected {T : Type} [LinearOrder T]
    (conv : String → Except ConvError T) (uri : URI) (param : String)
    (dv mn : Option T) (mx : T) (raw : String) (v : T)
    (hopt : uri.get_option param = some raw)
    (hconv : conv raw = Except.ok v)
    (hgt : mx < v)
    (hinv : ∀ m, mn = some m → m ≤ mx) :
    _conf_param conv uri param dv mn (some mx)
      = Except.error (ResolutionError.aboveMaximum param v mx) :=
  _conf_param_max_error conv uri param dv mn (some mx) v _
    (lookup_convert_present_ok conv uri param dv raw v hopt hconv)
    (min_check_passes param mn v
      (fun m hm => le_trans (hinv m hm) (le_of_lt hgt)))
    (max_check_fails param mx v hgt)

/-- C6 (witness): resolving key `x` with raw value `32` against bounds
`1 ≤ _ ≤ 10` fails with the above-maximum error carrying `x`, `32` and
`10`. -/
theorem above_maximum_rejected_witness :
    _conf_param demo_conv demo_uri_present "x" none (some 1) (some 10)
      = Except.error (ResolutionError.aboveMaximum "x" 32 10) :=
  above_maximum_rejected demo_conv demo_uri_present "x" none (some 1) 10
    "32" 32 rfl rfl (by decide) (fun m hm => by cases hm; decide)

/-- C7: bounds are inclusive — when the key is present, its raw string
converts successfully to a value exactly equal to the supplied minimum
bound or exactly equal to the supplied maximum bound, resolution succeeds
and returns that value (assuming the documented caller invariant
minimum ≤ maximum when both bounds are supplied). -/
theorem bounds_inclusive_at_equality {T : Type} [LinearOrder T]
    (conv : String → Except ConvError T) (uri : URI) (param : String)
    (dv mn mx : Option T) (raw : String) (v : T)
    (hopt : uri.get_option param = some raw)
    (hconv : conv raw = Except.ok v)
    (hinv : ∀ m1 m2, mn = some m1 → mx = some m2 → m1 ≤ m2)
    (heq : mn = some v ∨ mx = some v) :
    _conf_param conv uri param dv mn mx = Except.ok v := by
  apply _conf_param_ok conv uri param dv mn mx v
    (lookup_convert_present_ok conv uri param dv raw v hopt hconv)
  · apply min_check_passes
    intro m hm
    rcases heq with h | h
    · rw [hm] at h
      exact le_of_eq (Option.some_injective T h)
    · exact hinv m v hm h
  · apply max_check_passes
    intro m hm
    rcases heq with h | h
    · exact hinv v m h hm
    · rw [hm] at h
      exact le_of_eq (Option.some_injective T h).symm

/-- C7 (witness): resolving key `x` with raw value `5` against bounds
`5 ≤ _ ≤ 10` succeeds with `5`, the value equal to the minimum bound. -/
theorem bounds_inclusive_at_equality_witness :
    _conf_param demo_conv demo_uri_five "x" none (some 5) (some 10)
      = Except.ok 5 :=
  bounds_inclusive_at_equality demo_conv demo_uri_five "x" none
    (some 5) (some 10) "5" 5 rfl rfl
    (fun m1 m2 h1 h2 => by cases h1; cases h2; decide)
    (Or.inl rfl)

/-- C8: each convenience entry point — required-only `conf_param`,
with-default `conf_param_def`, with-range `conf_param_range`, and
with-default-and-range `conf_param_def_range`, together with the
additional `conf_param_def_min` and `conf_param_def_max` wrappers —
equals the primitive `_conf_param` called with the corresponding subset
of default/min/max arguments, for every source, key, converter and
argument combination. -/
theorem convenience_wrappers_route_through_primitive {T : Type}
    [LinearOrder T] (conv : String → Except ConvError T)
    (uri : URI) (param : String) (d mn mx : T) :
    conf_param conv uri param = _conf_param conv uri param none none none
    ∧ conf_param_def conv uri param d
        = _conf_param conv uri param (some d) none none
    ∧ conf_param_range conv uri param mn mx
        = _conf_param conv uri param none (some mn) (some mx)
    ∧ conf_param_def_min conv uri param d mn
        = _conf_param conv uri param (some d) (some mn) none
    ∧ conf_param_def_max conv uri param d mx
        = _conf_param conv uri param (some d) none (some mx)
    ∧ conf_param_def_range conv uri param d mn mx
        = _conf_param conv uri param (some d) (some mn) (some mx) :=
  ⟨rfl, rfl, rfl, rfl, rfl, rfl⟩

/-- C9: when the key is present in the source, the supplied default has no
influence on the outcome — resolution with defaults `d1` and `d2` (same
converter, same bounds) produce identical results, whether conversion
succeeds or fails. -/
theorem present_key_default_irrelevant {T : Type} [LinearOrder T]
    (conv : String → Except ConvError T) (uri : URI) (param : String)
    (raw : String) (d1 d2 mn mx : Option T)
    (hopt : uri.get_option param = some raw) :
    _conf_param conv uri param d1 mn mx
      = _conf_param conv uri param d2 mn mx := by
  unfold _conf_param
  rw [lookup_convert_present_any_default conv uri param d1 d2 raw hopt]

/-- C9 (witness): with key `x` present, resolving with default `1` and
with default `999` give the same result. -/
theorem present_key_default_irrelevant_witness :
    _conf_param demo_conv demo_uri_present "x" (some 1) none none
      = _conf_param demo_conv demo_uri_present "x" (some 999) none none :=
  present_key_default_irrelevant demo_conv demo_uri_present "x" "32"
    (some 1) (some 999) none none rfl

/-- C10: `conf_param_def_max` performs no minimum check — for every
source, key, converter, default and maximum bound it never fails with a
below-minimum error, and a resolved value arbitrarily small (but not
above the maximum) is returned successfully. -/
theorem def_max_never_below_minimum {T : Type} [LinearOrder T]
    (conv : String → Except ConvError T) (uri : URI) (param : String)
    (d mx : T) :
    (∀ (p : String) (v m : T),
      conf_param_def_max conv uri param d mx
        ≠ Except.error (ResolutionError.belowMinimum p v m))
    ∧ (∀ (raw : String) (v : T),
      uri.get_option param = some raw → conv raw = Except.ok v → v ≤ mx →
      conf_param_def_max conv uri param d mx = Except.ok v) := by
  constructor
  · intro p v m hcontra
    unfold conf_param_def_max at hcontra
    cases hl : lookup_convert conv uri param (some d) with
    | error e =>
      rw [_conf_param_lookup_error conv uri param (some d) none (some mx)
        e hl] at hcontra
      exact lookup_convert_never_below conv uri param (some d) p v m
        (hl.trans hcontra)
    | ok ret =>
      cases hm : max_check param (some mx) ret with
      | error e =>
        rw [_conf_param_max_error conv uri param (some d) none (some mx)
          ret e hl rfl hm] at hcontra
        exact max_check_never_below param (some mx) ret p v m
          (by rw [hm, Except.error.inj hcontra])
      | ok u =>
        cases u
        rw [_conf_param_ok conv uri param (some d) none (some mx) ret hl
          rfl hm] at hcontra
        exact Except.noConfusion hcontra
  · intro raw v hopt hconv hle
    exact _conf_param_ok conv uri param (some d) none (some mx) v
      (lookup_convert_present_ok conv uri param (some d) raw v hopt hconv)
      rfl
      (max_check_passes param (some mx) v
        (fun m hm => by cases hm; exact hle))

/-- C10 (witness): resolving key `x` with raw value `0` through
`conf_param_def_max` with default `99` and maximum `100` returns `0`
successfully, and in particular is not the below-minimum error. -/
theorem def_max_never_below_minimum_witness :
    conf_param_def_max demo_conv demo_uri_low "x" 99 100 = Except.ok 0
    ∧ conf_param_def_max demo_conv demo_uri_low "x" 99 100
        ≠ Except.error (ResolutionError.belowMinimum "x" 0 99) :=
  ⟨(def_max_never_below_minimum demo_conv demo_uri_low "x" 99 100).2
      "0" 0 rfl rfl (by decide),
   (def_max_never_below_minimum demo_conv demo_uri_low "x" 99 100).1
      "x" 0 99⟩

end gcomm
